import Mathlib

/-!
Shallow embedding of the search/orchestration code of the
ai-airbnb-search-app repository, with theorems settling the claims of its
specification.  Pure functions of the JavaScript/TypeScript/Python sources
are translated into Lean functions; JavaScript runtime values arriving in
request bodies are modelled by the `JVal` type below, with `NaN` results of
`parseInt` modelled as `none : Option Int`.  `Math.random()` streams are
modelled as explicit `Nat → Nat` (or `Nat → ℚ`) oracle parameters, and
`Date.now()` as an explicit `now : Nat` parameter.  IEEE-754 rounding of
intermediate float arithmetic is modelled by exact rational arithmetic;
no claim below depends on a value where the two differ.
-/

namespace AirbnbSearch

/-! ### A model of JSON-like JavaScript values -/

/-- JavaScript values that can arrive in a JSON request body or an upstream
JSON response: `null`, `undefined` (an absent field), numbers, strings,
booleans and arrays. -/
inductive JVal where
  | null
  | undefined
  | num (n : Int)
  | str (s : String)
  | bool (b : Bool)
  | arr (xs : List JVal)

/-- JavaScript truthiness: `0`, `""`, `null`, `undefined` and `false` are
falsy; every other value (including an empty array) is truthy. -/
def truthy : JVal → Bool
  | .null => false
  | .undefined => false
  | .num n => n != 0
  | .str s => !s.data.isEmpty
  | .bool b => b
  | .arr _ => true

/-- JavaScript `a || b`. -/
def jOr (a b : JVal) : JVal := if truthy a then a else b

mutual

/-- JavaScript `String(v)` for the values of `JVal`. -/
def jToString : JVal → String
  | .null => "null"
  | .undefined => "undefined"
  | .num n => toString n
  | .str s => s
  | .bool b => if b then "true" else "false"
  | .arr xs => jToStringList xs

/-- Array stringification: elements joined by commas. -/
def jToStringList : List JVal → String
  | [] => ""
  | [x] => jToString x
  | x :: y :: xs => jToString x ++ "," ++ jToStringList (y :: xs)

end

/-- Accumulate the value of a leading run of decimal digits. -/
def digitsToNat : List Char → Nat → Nat
  | c :: cs, acc => if c.isDigit then digitsToNat cs (acc * 10 + (c.toNat - 48)) else acc
  | [], acc => acc

/-- Parse a non-empty leading run of decimal digits, `none` if the first
character is not a digit. -/
def takeDigitsVal : List Char → Option Nat
  | c :: cs => if c.isDigit then some (digitsToNat cs (c.toNat - 48)) else none
  | [] => none

/-- Drop leading whitespace characters. -/
def dropWs : List Char → List Char
  | c :: cs => if c.isWhitespace then dropWs cs else c :: cs
  | [] => []

/-- JavaScript `parseInt` on a string (decimal): skip leading whitespace,
read an optional sign and a leading digit run; `none` models `NaN`.
Radix prefixes such as `0x` are not modelled; no claim depends on them. -/
def parseIntStr (s : String) : Option Int :=
  match dropWs s.data with
  | '-' :: cs => (takeDigitsVal cs).map (fun n => -(n : Int))
  | '+' :: cs => (takeDigitsVal cs).map (fun n => (n : Int))
  | cs => (takeDigitsVal cs).map (fun n => (n : Int))

/-- JavaScript `parseInt(v)`: numbers pass through (the sources only feed it
integral values), every other value is stringified first.  `none` is `NaN`. -/
def parseIntJS : JVal → Option Int
  | .num n => some n
  | v => parseIntStr (jToString v)

/-- JavaScript `Math.min` over possibly-`NaN` numbers. -/
def jsMin : Option Int → Option Int → Option Int
  | some a, some b => some (min a b)
  | _, _ => none

/-- JavaScript `Math.max` over possibly-`NaN` numbers. -/
def jsMax : Option Int → Option Int → Option Int
  | some a, some b => some (max a b)
  | _, _ => none

/-- JavaScript `parseInt(v) || d`: `NaN` and `0` both fall back to `d`. -/
def jsIntOr (v : JVal) (d : Int) : Int :=
  match parseIntJS v with
  | some q => if q = 0 then d else q
  | none => d

/-- First `n` characters of a string (JS `substring(0, n)`). -/
def jsSubstr (s : String) (n : Nat) : String := String.mk (s.data.take n)

/-- JavaScript `String.prototype.trim` / Python `str.strip`: leading and
trailing whitespace removed. -/
def jsTrim (s : String) : String := String.mk ((dropWs (dropWs s.data).reverse).reverse)

/-- ASCII-faithful `toLowerCase` / `str.lower()`. -/
def jsToLower (s : String) : String := String.mk (s.data.map Char.toLower)

/-! ### `validateSearchParams` (src/mcp-server/http-wrapper.js.backup) -/

/-- Fields of a `/search` request body; an absent field is `JVal.undefined`. -/
structure SearchBody where
  location : JVal := .undefined
  checkin : JVal := .undefined
  checkout : JVal := .undefined
  adults : JVal := .undefined
  children : JVal := .undefined
  infants : JVal := .undefined
  pets : JVal := .undefined
  minPrice : JVal := .undefined
  maxPrice : JVal := .undefined
  bedrooms : JVal := .undefined
  property_type : JVal := .undefined
  amenities : JVal := .undefined

/-- Validated parameter object.  A price/bedroom field is `none` for the
JavaScript `null`, `some none` for `NaN`, and `some (some q)` for a number. -/
structure SearchParams where
  location : String
  checkin : Option JVal
  checkout : Option JVal
  adults : Int
  children : Int
  infants : Int
  pets : Int
  minPrice : Option (Option Int)
  maxPrice : Option (Option Int)
  bedrooms : Option (Option Int)
  property_type : Option String
  amenities : List JVal

/-- Value of `validMinPrice || 0` used in the `maxPrice` clamp: `null`, `NaN`
and `0` all fall back to `0`. -/
def jnumOrZero : Option (Option Int) → Int
  | some (some q) => if q = 0 then 0 else q
  | _ => 0

/-- The `validateSearchParams` function of the backup HTTP wrapper.
`isValidDate` abstracts the `new Date`-based check (it compares against the
current clock, which is not part of the embedding). -/
def validateSearchParams (isValidDate : JVal → Bool) (body : SearchBody) : SearchParams :=
  let validMinPrice : Option (Option Int) :=
    if truthy body.minPrice then some (jsMax (some 0) (jsMin (some 10000) (parseIntJS body.minPrice)))
    else none
  { location :=
      if truthy body.location then jsSubstr (jsTrim (jToString body.location)) 100
      else "United States"
    checkin := if truthy body.checkin && isValidDate body.checkin then some body.checkin else none
    checkout := if truthy body.checkout && isValidDate body.checkout then some body.checkout else none
    adults := max 1 (min 16 (jsIntOr body.adults 1))
    children := max 0 (min 8 (jsIntOr body.children 0))
    infants := max 0 (min 5 (jsIntOr body.infants 0))
    pets := max 0 (min 5 (jsIntOr body.pets 0))
    minPrice := validMinPrice
    maxPrice :=
      if truthy body.maxPrice then
        some (jsMax (some (jnumOrZero validMinPrice)) (jsMin (some 50000) (parseIntJS body.maxPrice)))
      else none
    bedrooms :=
      if truthy body.bedrooms then some (jsMax (some 1) (jsMin (some 20) (parseIntJS body.bedrooms)))
      else none
    property_type :=
      if truthy body.property_type then some (jsTrim (jToString body.property_type)) else none
    amenities :=
      match body.amenities with
      | .arr xs => xs.take 10
      | _ => [] }

/-! ### `handleSearch` input validation (frontend `App.tsx`) -/

/-- Outcome of submitting the search form: either an error message shown to
the user (no upstream request is issued) or the trimmed query sent to
`searchProperties`. -/
inductive SearchFormOutcome where
  | rejected (msg : String)
  | submitted (query : String)
deriving DecidableEq

/-- The input-validation part of `handleSearch`: the request is issued
exactly when none of the three guards fires. -/
def handleSearch (q : String) : SearchFormOutcome :=
  let trimmedQuery := jsTrim q
  if trimmedQuery = "" then .rejected "Please enter a search query"
  else if trimmedQuery.length < 2 then .rejected "Please enter at least 2 characters"
  else if trimmedQuery.length > 500 then
    .rejected "Search query is too long. Please keep it under 500 characters."
  else .submitted trimmedQuery

/-! ### `extract_location_from_query` (backend plan, Python) -/

/-- Python `needle in hay` substring test. -/
def containsGo (ns : List Char) : List Char → Bool
  | [] => ns.isEmpty
  | c :: cs => List.isPrefixOf ns (c :: cs) || containsGo ns cs

/-- Substring containment on strings. -/
def strContainsSub (hay needle : String) : Bool := containsGo needle.data hay.data

/-- Python `str.title()`: the first letter of every alphabetic run is
upper-cased, the rest lower-cased. -/
def titleGo : List Char → Bool → List Char
  | [], _ => []
  | c :: cs, prevAlpha =>
    (if c.isAlpha then (if prevAlpha then c.toLower else c.toUpper) else c) :: titleGo cs c.isAlpha

/-- Python `str.title()` on strings. -/
def titleCase (s : String) : String := String.mk (titleGo s.data false)

/-- Match the regex `kw\s+([^,]+(?:,\s*[^,]+)?)` anchored at the start of
`cs`, returning the captured group.  Backtracking of `\s+` into a
whitespace-only `[^,]+` is not modelled; no claim reaches such an input. -/
def matchAtPos (kw : List Char) (cs : List Char) : Option (List Char) :=
  if List.isPrefixOf kw cs then
    let rest := cs.drop kw.length
    match rest with
    | c :: _ =>
      if c.isWhitespace then
        let afterWs := dropWs rest
        let run1 := afterWs.takeWhile (fun ch => ch ≠ ',')
        if run1.isEmpty then none
        else
          match afterWs.drop run1.length with
          | ',' :: r2 =>
            let ws2 := r2.takeWhile (fun ch => ch.isWhitespace)
            let run2 := (r2.drop ws2.length).takeWhile (fun ch => ch ≠ ',')
            if run2.isEmpty then some run1
            else some (run1 ++ ',' :: (ws2 ++ run2))
          | _ => some run1
      else none
    | [] => none
  else none

/-- Python `re.search`: leftmost match of the pattern. -/
def searchPattern (kw : List Char) : List Char → Option (List Char)
  | [] => none
  | c :: cs =>
    match matchAtPos kw (c :: cs) with
    | some g => some g
    | none => searchPattern kw cs

/-- The `extract_location_from_query` function of the backend integration
plan: substring checks for known cities, then `in`/`near`/`around` regex
captures, then a San Francisco default. -/
def extract_location_from_query (query : String) : String :=
  let ql := jsToLower query
  if strContainsSub ql "san francisco" || strContainsSub ql "sf" then "San Francisco, CA"
  else if strContainsSub ql "new york" || strContainsSub ql "nyc" then "New York, NY"
  else if strContainsSub ql "los angeles" || strContainsSub ql "la" then "Los Angeles, CA"
  else
    match searchPattern "in".data ql.data with
    | some g => titleCase (String.mk g)
    | none =>
      match searchPattern "near".data ql.data with
      | some g => titleCase (String.mk g)
      | none =>
        match searchPattern "around".data ql.data with
        | some g => titleCase (String.mk g)
        | none => "San Francisco, CA"

/-! ### `searchProperties` retry loop (frontend `services/api.ts`) -/

/-- Shape of an axios error object as inspected by the frontend: the
optional HTTP status, the optional `data.message` / `data.error` strings of
the response body, the error message and the error code. -/
structure JsError where
  responseStatus : Option Int := none
  dataMessage : Option String := none
  dataError : Option String := none
  message : Option String := none
  code : Option String := none
deriving DecidableEq

/-- Truthiness of an optional string field (`error?.response?.data?.message`
is used only when it is a non-empty string). -/
def truthyStr : Option String → Bool
  | some s => !s.data.isEmpty
  | none => false

/-- The `getErrorMessage` utility of `services/api.ts`. -/
def getErrorMessage (e : JsError) : String :=
  if truthyStr e.dataMessage then e.dataMessage.getD ""
  else if truthyStr e.dataError then e.dataError.getD ""
  else if truthyStr e.message then e.message.getD ""
  else if e.responseStatus = some 404 then "Service not found. Please check your connection."
  else if e.responseStatus = some 500 then "Server error. Please try again later."
  else if e.responseStatus = some 503 then "Service temporarily unavailable. Please try again."
  else if e.code = some "NETWORK_ERROR" then "Network error. Please check your internet connection."
  else if e.code = some "ECONNABORTED" then "Request timeout. Please try again."
  else "An unexpected error occurred. Please try again."

/-- The `data` member of a search response (`response.data.data`). -/
structure SearchDataJs where
  properties : Option (List JVal)
  total : Option Int
  query : Option String
  processingTime : Option Int

/-- A resolved search response (`response.data`): whether it is a non-null
object, and its fields. -/
structure SearchResponseJs where
  dataIsObject : Bool
  success : Bool
  dataField : Option SearchDataJs
  message : Option String

/-- Outcome of one `api.post` call: the promise either fulfils with a
response or rejects with an error. -/
inductive AxiosResult where
  | fulfilled (resp : SearchResponseJs)
  | rejected (e : JsError)

/-- One loop iteration body of `searchProperties`: validate the response
shape and patch a missing `properties` array, or fail with the error. -/
def runAttempt (r : AxiosResult) (q : String) : Except JsError SearchResponseJs :=
  match r with
  | .rejected e => .error e
  | .fulfilled resp =>
    if !resp.dataIsObject then
      .error { message := some "Invalid response format from server" }
    else
      match resp.dataField with
      | none =>
        .ok { resp with dataField := some ⟨some [], some 0, some q, some 0⟩ }
      | some d =>
        match d.properties with
        | none => .ok { resp with dataField := some ⟨some [], some 0, some q, some 0⟩ }
        | some _ => .ok resp

/-- The 4xx check `error.response?.status >= 400 && error.response?.status < 500`. -/
def is4xx (e : JsError) : Bool :=
  match e.responseStatus with
  | some s => decide (400 ≤ s) && decide (s < 500)
  | none => false

/-- Result of a `searchProperties` run: the surfaced value, the number of
attempts issued, and the backoff delays (ms) waited between attempts. -/
structure SearchRun where
  result : Except String SearchResponseJs
  attemptsUsed : Nat
  delays : List Nat

/-- The retry loop of `searchProperties` with `maxRetries = 3`: `rem` is the
number of attempts still allowed (including the current one), `attempt` the
1-based attempt counter; the backoff is `min(1000 * 2^(attempt-1), 5000)`. -/
def searchGo (att : Nat → AxiosResult) (q : String) : Nat → Nat → SearchRun
  | _, 0 => { result := .error (getErrorMessage { message := some "Unknown error" }), attemptsUsed := 0, delays := [] }
  | attempt, 1 =>
    match runAttempt (att attempt) q with
    | .ok r => { result := .ok r, attemptsUsed := 1, delays := [] }
    | .error e => { result := .error (getErrorMessage e), attemptsUsed := 1, delays := [] }
  | attempt, rem + 2 =>
    match runAttempt (att attempt) q with
    | .ok r => { result := .ok r, attemptsUsed := 1, delays := [] }
    | .error e =>
      if is4xx e then { result := .error (getErrorMessage e), attemptsUsed := 1, delays := [] }
      else
        let d := min (1000 * 2 ^ (attempt - 1)) 5000
        let rest := searchGo att q (attempt + 1) (rem + 1)
        { result := rest.result, attemptsUsed := rest.attemptsUsed + 1, delays := d :: rest.delays }

/-- The `searchProperties` request loop, parameterised by the per-attempt
axios outcomes. -/
def searchProperties (att : Nat → AxiosResult) (q : String) : SearchRun :=
  searchGo att q 1 3

/-! ### CircuitBreaker -/

/-- Modelled from the spec: the CircuitBreaker component (the
`backend_improvements.py` implementation described by the repository's
edge-case report) is not among the source files; its state machine is taken
from the specification: `closed` → (threshold consecutive failures) →
`open` → (recovery timeout) → `halfOpen` trial → `closed` on success /
`open` on failure. -/
inductive CBStatus where
  | closed
  | opened
  | halfOpen
deriving DecidableEq

/-- Per-source circuit state: status, consecutive-failure counter, and the
timestamp (ms) at which the circuit last opened. -/
structure CBState where
  status : CBStatus
  consecutiveFailures : Nat
  openedAt : Nat
deriving DecidableEq

/-- Circuit-breaker configuration: failure threshold and recovery timeout. -/
structure CBConfig where
  threshold : Nat
  recoveryMs : Nat

/-- Default configuration: 5 consecutive failures, 60 s recovery. -/
def cbDefault : CBConfig := { threshold := 5, recoveryMs := 60000 }

/-- Result of one guarded call: either short-circuited (no network call is
issued) or executed with the given outcome. -/
inductive CBResult where
  | circuitOpenError
  | executed (success : Bool)
deriving DecidableEq

/-- Initial circuit state. -/
def cbInit : CBState := { status := .closed, consecutiveFailures := 0, openedAt := 0 }

/-- Record a failure in the `closed` state, opening the circuit when the
threshold is reached. -/
def cbRecordFailure (cfg : CBConfig) (s : CBState) (now : Nat) : CBState :=
  let f := s.consecutiveFailures + 1
  if cfg.threshold ≤ f then { status := .opened, consecutiveFailures := f, openedAt := now }
  else { s with consecutiveFailures := f }

/-- Execute the half-open trial call: success closes the circuit and resets
the failure counter; failure re-opens it and restarts the recovery timer. -/
def cbTrial (s : CBState) (now : Nat) (callSucceeds : Bool) : CBState × CBResult :=
  if callSucceeds then ({ status := .closed, consecutiveFailures := 0, openedAt := s.openedAt }, .executed true)
  else ({ status := .opened, consecutiveFailures := s.consecutiveFailures + 1, openedAt := now }, .executed false)

/-- One guarded call through the circuit breaker at time `now`: an open
circuit short-circuits until the recovery timeout elapses, after which one
trial call is allowed. -/
def cbCall (cfg : CBConfig) (s : CBState) (now : Nat) (callSucceeds : Bool) : CBState × CBResult :=
  match s.status with
  | .closed =>
    if callSucceeds then ({ status := .closed, consecutiveFailures := 0, openedAt := s.openedAt }, .executed true)
    else (cbRecordFailure cfg s now, .executed false)
  | .opened =>
    if s.openedAt + cfg.recoveryMs ≤ now then cbTrial s now callSucceeds
    else (s, .circuitOpenError)
  | .halfOpen => cbTrial s now callSucceeds

/-- Fold a sequence of failing calls (with their timestamps) through the
breaker. -/
def cbFailMany (cfg : CBConfig) : CBState → List Nat → CBState
  | s, [] => s
  | s, t :: ts => cbFailMany cfg (cbCall cfg s t false).1 ts

/-! ### `transformRapidAPIResponse` (src/mcp-server/http-wrapper.js.backup) -/

/-- The `host` sub-object of a RapidAPI listing (accessed with `?.`). -/
structure RapidHost where
  name : JVal := .undefined
  picture : JVal := .undefined
  is_superhost : JVal := .undefined

/-- A raw RapidAPI listing as accessed by the transform; `pricingRate` is
`item.pricing?.rate` (`undefined` when `pricing` is absent), `images` is the raw
`images` array when present. -/
structure RapidItem where
  id : JVal := .undefined
  name : JVal := .undefined
  summary : JVal := .undefined
  pricingRate : JVal := .undefined
  address : JVal := .undefined
  city : JVal := .undefined
  country : JVal := .undefined
  lat : JVal := .undefined
  lng : JVal := .undefined
  images : Option (List JVal) := none
  amenities : JVal := .undefined
  rating : JVal := .undefined
  reviews : JVal := .undefined
  host : Option RapidHost := none
  property_type : JVal := .undefined
  guests : JVal := .undefined
  bedrooms : JVal := .undefined
  bathrooms : JVal := .undefined
  url : JVal := .undefined

/-- A listing in the wrapper's canonical output shape. -/
structure RapidProperty where
  id : JVal
  title : JVal
  description : JVal
  price : JVal
  currency : String
  address : JVal
  city : JVal
  country : JVal
  lat : JVal
  lng : JVal
  images : List JVal
  amenities : JVal
  rating : JVal
  reviewCount : JVal
  hostName : JVal
  hostAvatar : JVal
  hostIsSuperhost : JVal
  propertyType : JVal
  guests : JVal
  bedrooms : JVal
  bathrooms : JVal
  url : JVal

/-- Field access through the optional `host` object. -/
def hostField (h : Option RapidHost) (f : RapidHost → JVal) : JVal :=
  match h with
  | some host => f host
  | none => .undefined

/-- Transform of a single listing.  `transformRapidAPIResponse` is invoked
with a single argument, so its `searchParams` parameter is `undefined`; the
fallbacks `item.city || searchParams.location` and
`item.guests || searchParams.adults` therefore throw a `TypeError` when the
corresponding field is falsy, modelled by `Except.error`. -/
def transformRapidItem (now : Nat) (rng : Nat → Nat) (idx : Nat) (item : RapidItem) :
    Except Unit RapidProperty :=
  if truthy item.city = false then .error ()
  else if truthy item.guests = false then .error ()
  else .ok
    { id := jOr item.id (.str ("rapid_" ++ toString now ++ "_" ++ toString idx))
      title := jOr item.name (.str "Property Listing")
      description := jOr item.summary (.str "Beautiful property with great amenities")
      price := jOr item.pricingRate (.num (100 + (rng idx % 300 : Nat)))
      currency := "USD"
      address := jOr item.address (.str "Address not available")
      city := item.city
      country := jOr item.country (.str "United States")
      lat := jOr item.lat (.num 0)
      lng := jOr item.lng (.num 0)
      images :=
        match item.images with
        | some xs => xs.take 3
        | none => [.str "https://images.unsplash.com/photo-1564013799919-ab600027ffc6?w=800"]
      amenities := jOr item.amenities (.arr [.str "WiFi", .str "Kitchen", .str "Parking"])
      rating := jOr item.rating (.num 4)
      reviewCount := jOr item.reviews (.num 50)
      hostName := jOr (hostField item.host (·.name)) (.str "Host")
      hostAvatar := jOr (hostField item.host (·.picture))
        (.str "https://images.unsplash.com/photo-1494790108755-2616b612b786?w=150")
      hostIsSuperhost := jOr (hostField item.host (·.is_superhost)) (.bool false)
      propertyType := jOr item.property_type (.str "Apartment")
      guests := item.guests
      bedrooms := jOr item.bedrooms (.num 1)
      bathrooms := jOr item.bathrooms (.num 1)
      url := jOr item.url (.str ("https://airbnb.com/rooms/" ++ jToString item.id)) }

/-- Transform a list of listings with their indices, propagating a thrown
`TypeError`. -/
def transformRapidList (now : Nat) (rng : Nat → Nat) : Nat → List RapidItem →
    Except Unit (List RapidProperty)
  | _, [] => .ok []
  | i, item :: rest => do
    let p ← transformRapidItem now rng i item
    let ps ← transformRapidList now rng (i + 1) rest
    return p :: ps

/-- The response payload of the RapidAPI search call; `results` is `none`
when the field is absent. -/
structure RapidData where
  results : Option (List RapidItem)

/-- The `transformRapidAPIResponse` function: empty output for a missing
body or missing `results`, otherwise the first five listings transformed. -/
def transformRapidAPIResponse (now : Nat) (rng : Nat → Nat) (data : Option RapidData) :
    Except Unit (List RapidProperty) :=
  match data with
  | none => .ok []
  | some d =>
    match d.results with
    | none => .ok []
    | some rs => transformRapidList now rng 0 (rs.take 5)

/-- Price of the first transformed listing (used to state counterexamples
without binders). -/
def firstPrice : Except Unit (List RapidProperty) → JVal
  | .ok (p :: _) => p.price
  | _ => .null

/-- Rating of the first transformed listing. -/
def firstRating : Except Unit (List RapidProperty) → JVal
  | .ok (p :: _) => p.rating
  | _ => .null

/-- Rating of the second transformed listing. -/
def secondRating : Except Unit (List RapidProperty) → JVal
  | .ok (_ :: p :: _) => p.rating
  | _ => .null

/-- Review count of the second transformed listing. -/
def secondReviewCount : Except Unit (List RapidProperty) → JVal
  | .ok (_ :: p :: _) => p.reviewCount
  | _ => .null

/-! ### Enhanced realistic property generator (src/mcp-server/http-wrapper.js.backup) -/

/-- A property-type template of `getPropertyTypesForLocation`. -/
structure PropertyTemplate where
  name : String
  category : String
  basePrice : Nat
  defaultGuests : Int
  description : String
  amenities : List String
  images : List String

/-- The five templates of `getPropertyTypesForLocation`. -/
def allTypes : List PropertyTemplate :=
  [ { name := "Luxury Downtown Apartment", category := "Apartment", basePrice := 180,
      defaultGuests := 4,
      description := "Modern apartment in the heart of the city with stunning views and premium amenities.",
      amenities := ["WiFi", "Gym", "Kitchen", "City View", "Elevator", "Concierge", "Parking"],
      images := ["https://images.unsplash.com/photo-1522708323590-d24dbb6b0267?w=800",
                 "https://images.unsplash.com/photo-1560448204-e02f11c3d0e2?w=800"] },
    { name := "Spacious Family House", category := "House", basePrice := 250,
      defaultGuests := 8,
      description := "Beautiful family home with multiple bedrooms, perfect for large groups and extended stays.",
      amenities := ["WiFi", "Kitchen", "Parking", "Garden", "BBQ", "Laundry", "Air Conditioning"],
      images := ["https://images.unsplash.com/photo-1564013799919-ab600027ffc6?w=800",
                 "https://images.unsplash.com/photo-1571896349842-33c89424de2d?w=800"] },
    { name := "Luxury Villa with Pool", category := "Villa", basePrice := 450,
      defaultGuests := 12,
      description := "Exclusive luxury villa featuring private pool, spa facilities, and breathtaking views.",
      amenities := ["WiFi", "Pool", "Spa", "Garden", "Parking", "Chef Kitchen", "Wine Cellar", "Hot Tub"],
      images := ["https://images.unsplash.com/photo-1613490493576-7fde63acd811?w=800",
                 "https://images.unsplash.com/photo-1582268611958-ebfd161ef9cf?w=800"] },
    { name := "Cozy Studio Retreat", category := "Studio", basePrice := 95,
      defaultGuests := 2,
      description := "Charming studio apartment with everything you need for a comfortable stay.",
      amenities := ["WiFi", "Kitchen", "Workspace", "Coffee Machine", "Streaming Services"],
      images := ["https://images.unsplash.com/photo-1502672260266-1c1ef2d93688?w=800",
                 "https://images.unsplash.com/photo-1586023492125-27b2c045efd7?w=800"] },
    { name := "Mountain Cabin Escape", category := "Cabin", basePrice := 160,
      defaultGuests := 6,
      description := "Rustic mountain cabin surrounded by nature, perfect for outdoor adventures and relaxation.",
      amenities := ["WiFi", "Fireplace", "Kitchen", "Mountain View", "Hiking Trails", "Hot Tub", "BBQ"],
      images := ["https://images.unsplash.com/photo-1449824913935-59a10b8d2000?w=800",
                 "https://images.unsplash.com/photo-1506905925346-21bda4d32df4?w=800"] } ]

/-- A host entry of the location map. -/
structure EnhHost where
  name : String
  avatar : String
  isSuperhost : Bool

/-- A location entry of `getLocationSpecificData`. -/
structure LocationData where
  displayName : String
  city : String
  country : String
  lat : ℚ
  lng : ℚ
  streets : List String
  hosts : List EnhHost

/-- The San Francisco entry, also the default fallback. -/
def sanFranciscoData : LocationData :=
  { displayName := "San Francisco", city := "San Francisco", country := "United States",
    lat := 377749/10000, lng := -1224194/10000,
    streets := ["Market Street", "Mission Street", "Valencia Street", "Castro Street", "Fillmore Street"],
    hosts := [⟨"Alex Chen", "https://images.unsplash.com/photo-1472099645785-5658abf4ff4e?w=150", true⟩,
              ⟨"Sarah Kim", "https://images.unsplash.com/photo-1438761681033-6461ffad8d80?w=150", true⟩] }

/-- The `getLocationSpecificData` lookup. -/
def getLocationSpecificData (location : String) : LocationData :=
  let key := jsToLower location
  if key = "texas" then
    { displayName := "Texas", city := "Austin", country := "United States",
      lat := 302672/10000, lng := -977431/10000,
      streets := ["Congress Avenue", "South Lamar", "East 6th Street", "Rainey Street", "Barton Springs Road"],
      hosts := [⟨"Jake Wilson", "https://images.unsplash.com/photo-1507003211169-0a1dd7228f2d?w=150", true⟩,
                ⟨"Maria Gonzalez", "https://images.unsplash.com/photo-1494790108755-2616b612b786?w=150", false⟩] }
  else if key = "san francisco" then sanFranciscoData
  else if key = "new york" then
    { displayName := "New York", city := "New York", country := "United States",
      lat := 407128/10000, lng := -740060/10000,
      streets := ["Broadway", "Fifth Avenue", "Madison Avenue", "Park Avenue", "Lexington Avenue"],
      hosts := [⟨"David Rodriguez", "https://images.unsplash.com/photo-1507003211169-0a1dd7228f2d?w=150", true⟩,
                ⟨"Emma Thompson", "https://images.unsplash.com/photo-1544005313-94ddf0286df2?w=150", false⟩] }
  else sanFranciscoData

/-- The location multiplier table of `calculateRealisticPrice`. -/
def locationMultiplier (location : String) : ℚ :=
  let key := jsToLower location
  if key = "san francisco" then 5/2
  else if key = "new york" then 11/5
  else if key = "los angeles" then 9/5
  else if key = "miami" then 8/5
  else if key = "texas" then 6/5
  else if key = "austin" then 13/10
  else 1

/-- The `calculateRealisticPrice` function (float arithmetic modelled over
ℚ): `floor(basePrice * locationMultiplier * max(1, guests / 2))`. -/
def calculateRealisticPrice (location : String) (propertyType : PropertyTemplate) (guests : Int) : Int :=
  ⌊(propertyType.basePrice : ℚ) * locationMultiplier location * max 1 ((guests : ℚ) / 2)⌋

/-- Bedroom-count ladder used when no bedroom count was requested. -/
def defaultBedroomsFor (adults : Int) : Int :=
  if adults ≤ 2 then 1
  else if adults ≤ 4 then 2
  else if adults ≤ 6 then 3
  else if adults ≤ 8 then 4
  else if adults ≤ 12 then 6
  else if adults ≤ 16 then 8
  else ⌈(adults : ℚ) / 2⌉

/-- The `calculateBedrooms` function: a truthy requested count wins (`null`,
`NaN` and `0` are falsy), otherwise the ladder applies. -/
def calculateBedrooms (adults : Int) (requestedBedrooms : Option (Option Int)) : Int :=
  match requestedBedrooms with
  | some (some q) => if q ≠ 0 then q else defaultBedroomsFor adults
  | _ => defaultBedroomsFor adults

/-- A generated property record. -/
structure EnhProperty where
  id : String
  title : String
  description : String
  price : Int
  currency : String
  address : String
  city : String
  country : String
  lat : ℚ
  lng : ℚ
  images : List String
  amenities : List String
  rating : ℚ
  reviewCount : Nat
  hostName : String
  hostAvatar : String
  hostIsSuperhost : Bool
  propertyType : String
  guests : Int
  bedrooms : Int
  bathrooms : Int
  url : String

/-- List indexing with the modulo wrap-around used by the generator. -/
def getMod (l : List α) (d : α) (i : Nat) : α := l.getD (i % l.length) d

/-- Map with a running index. -/
def mapWithIdx (f : Nat → α → β) : Nat → List α → List β
  | _, [] => []
  | i, a :: as => f i a :: mapWithIdx f (i + 1) as

/-- The `generateEnhancedRealisticProperties` fallback generator.
`shuffled` is the output of `getPropertyTypesForLocation` — the template
list reordered by `sort(() => Math.random() - 0.5)`, hence an arbitrary
permutation of `allTypes`.  `rngN` draws the integer randoms, `rngQ` the
unit-interval randoms (`toFixed(1)` rating rounding is pre-applied in the
`rngN`-indexed tenth chosen). -/
def generateEnhancedRealisticProperties (shuffled : List PropertyTemplate)
    (rngN : Nat → Nat) (rngQ : Nat → ℚ) (now : Nat) (params : SearchParams) :
    List EnhProperty :=
  let locationData := getLocationSpecificData params.location
  mapWithIdx (fun idx ptype =>
    let basePrice := calculateRealisticPrice params.location ptype params.adults
    let propertyId := "enhanced_" ++ toString now ++ "_" ++ toString idx
    let bedrooms := calculateBedrooms params.adults params.bedrooms
    { id := propertyId
      title := ptype.name ++ " in " ++ locationData.displayName
      description := ptype.description
      price := basePrice
      currency := "USD"
      address := toString (rngN (10 * idx) % 999 + 1) ++ " " ++
        getMod locationData.streets "" idx
      city := locationData.city
      country := locationData.country
      lat := locationData.lat + (rngQ (10 * idx + 1) - 1/2) * (1/50)
      lng := locationData.lng + (rngQ (10 * idx + 2) - 1/2) * (1/50)
      images := ptype.images
      amenities := ptype.amenities
      rating := (35 + (rngN (10 * idx + 3) % 16 : Nat) : ℚ) / 10
      reviewCount := rngN (10 * idx + 4) % 200 + 25
      hostName := (getMod locationData.hosts ⟨"", "", false⟩ idx).name
      hostAvatar := (getMod locationData.hosts ⟨"", "", false⟩ idx).avatar
      hostIsSuperhost := (getMod locationData.hosts ⟨"", "", false⟩ idx).isSuperhost
      propertyType := ptype.category
      guests := max params.adults ptype.defaultGuests
      bedrooms := bedrooms
      bathrooms := ⌈(bedrooms : ℚ) / 2⌉
      url := "https://airbnb.com/rooms/" ++ propertyId }) 0 (shuffled.take 5)

/-! ### `fetchRealProperties` and the `/search` endpoint
(src/mcp-server/http-wrapper.js.backup) -/

/-- A listing in the endpoint's result array: either a listing transformed
from an upstream source or a generated fallback listing. -/
inductive Listing where
  | fromSource (p : RapidProperty)
  | generated (p : EnhProperty)

/-- The source loop of `fetchRealProperties`: the first source whose call
succeeds with a non-empty list wins (sliced to five); a thrown error or an
empty list moves on to the next source. -/
def fetchLoop : List (Except String (List Listing)) → Option (List Listing)
  | [] => none
  | .ok ps :: rest => if ps.length > 0 then some (ps.take 5) else fetchLoop rest
  | .error _ :: rest => fetchLoop rest

/-- The candidate pool of a search: the listings gathered from the sources,
i.e. the list of the first source that succeeded non-empty. -/
def candidatePool : List (Except String (List Listing)) → List Listing
  | [] => []
  | .ok ps :: rest => if ps.length > 0 then ps else candidatePool rest
  | .error _ :: rest => candidatePool rest

/-- The `fetchRealProperties` function, parameterised by the per-source call
outcomes and by the generated fallback list. -/
def fetchRealProperties (srcs : List (Except String (List Listing)))
    (fallback : List Listing) : List Listing :=
  match fetchLoop srcs with
  | some ps => ps
  | none => fallback

/-- Shape of the `/search` HTTP response as far as the claims observe it. -/
structure HttpSearchResponse where
  statusCode : Nat
  isErrorBody : Bool
  properties : List Listing
  total : Nat

/-- The `/search` endpoint of the backup wrapper.  Every step of the
modelled pipeline is total (as in the source, where validation and
generation cannot throw for JSON bodies), so the `catch` branch that
returns status 500 with fallback data is unreachable and the endpoint
always answers 200 with the fetched (or generated) properties. -/
def searchEndpoint (isValidDate : JVal → Bool) (body : SearchBody)
    (srcs : List (Except String (List Listing)))
    (shuffled : List PropertyTemplate) (rngN : Nat → Nat) (rngQ : Nat → ℚ)
    (now : Nat) : HttpSearchResponse :=
  let params := validateSearchParams isValidDate body
  let props := fetchRealProperties srcs
    ((generateEnhancedRealisticProperties shuffled rngN rngQ now params).map .generated)
  { statusCode := 200, isErrorBody := false, properties := props, total := props.length }

/-! ### Mock `/search` endpoints with price filters (earlier wrapper versions) -/

/-- JavaScript `x || d` for an optional string (empty string is falsy). -/
def jsStrOr (o : Option String) (d : String) : String :=
  match o with
  | some s => if s.data.isEmpty then d else s
  | none => d

/-- JavaScript `x || d` for an optional integer (`0` is falsy). -/
def jsIntOrD (o : Option Int) (d : Int) : Int :=
  match o with
  | some a => if a = 0 then d else a
  | none => d

/-- Decimal string with one fractional digit, the value of
`(…).toFixed(1)` for a value of `n` tenths. -/
def fixed1 (n : Nat) : String := toString (n / 10) ++ "." ++ toString (n % 10)

/-- A mock listing of the first wrapper version. -/
structure MockProperty where
  id : String
  title : String
  location : String
  price : Int
  rating : String
  images : List String
  amenities : List String
  guests : Int
  bedrooms : Int
  bathrooms : Int

/-- The five `mockProperties` of the first wrapper's `/search`; random
draws are `rnd` values taken modulo their range. -/
def mockProperties (location : Option String) (adults : Option Int)
    (rnd : Nat → Nat) : List MockProperty :=
  [ { id := "12345", title := "Beautiful Beach House in " ++ jsStrOr location "California",
      location := jsStrOr location "Malibu, CA",
      price := 100 + (rnd 0 % 300 : Nat), rating := fixed1 (30 + rnd 1 % 21),
      images := ["https://images.unsplash.com/photo-1564013799919-ab600027ffc6?w=800"],
      amenities := ["WiFi", "Pool", "Kitchen", "Parking"],
      guests := jsIntOrD adults 2, bedrooms := 1 + (rnd 2 % 4 : Nat), bathrooms := 1 + (rnd 3 % 3 : Nat) },
    { id := "12346", title := "Modern Downtown Apartment in " ++ jsStrOr location "California",
      location := jsStrOr location "San Francisco, CA",
      price := 150 + (rnd 4 % 250 : Nat), rating := fixed1 (30 + rnd 5 % 21),
      images := ["https://images.unsplash.com/photo-1522708323590-d24dbb6b0267?w=800"],
      amenities := ["WiFi", "Gym", "Kitchen", "City View"],
      guests := jsIntOrD adults 2, bedrooms := 1 + (rnd 6 % 3 : Nat), bathrooms := 1 + (rnd 7 % 2 : Nat) },
    { id := "12347", title := "Cozy Mountain Cabin in " ++ jsStrOr location "California",
      location := jsStrOr location "Lake Tahoe, CA",
      price := 80 + (rnd 8 % 200 : Nat), rating := fixed1 (30 + rnd 9 % 21),
      images := ["https://images.unsplash.com/photo-1449824913935-59a10b8d2000?w=800"],
      amenities := ["WiFi", "Fireplace", "Kitchen", "Mountain View"],
      guests := jsIntOrD adults 2, bedrooms := 2 + (rnd 10 % 3 : Nat), bathrooms := 1 + (rnd 11 % 2 : Nat) },
    { id := "12348", title := "Luxury Villa with Pool in " ++ jsStrOr location "California",
      location := jsStrOr location "Beverly Hills, CA",
      price := 300 + (rnd 12 % 500 : Nat), rating := fixed1 (40 + rnd 13 % 11),
      images := ["https://images.unsplash.com/photo-1613490493576-7fde63acd811?w=800"],
      amenities := ["WiFi", "Pool", "Spa", "Garden", "Parking"],
      guests := jsIntOrD adults 2, bedrooms := 3 + (rnd 14 % 4 : Nat), bathrooms := 2 + (rnd 15 % 3 : Nat) },
    { id := "12349", title := "Charming Studio in " ++ jsStrOr location "California",
      location := jsStrOr location "Santa Monica, CA",
      price := 75 + (rnd 16 % 150 : Nat), rating := fixed1 (30 + rnd 17 % 21),
      images := ["https://images.unsplash.com/photo-1502672260266-1c1ef2d93688?w=800"],
      amenities := ["WiFi", "Kitchen", "Beach Access"],
      guests := jsIntOrD adults 2, bedrooms := 1, bathrooms := 1 } ]

/-- JavaScript `if (minPrice) properties.filter(p => p.price >= minPrice)`:
a supplied `0` is falsy and skips the filter.  The claims quantify over
numeric price bounds, so the bound is an `Option Int`. -/
def filterMinPrice (minPrice : Option Int) (l : List MockProperty) : List MockProperty :=
  match minPrice with
  | some m => if m ≠ 0 then l.filter (fun p => m ≤ p.price) else l
  | none => l

/-- JavaScript `if (maxPrice) properties.filter(p => p.price <= maxPrice)`. -/
def filterMaxPrice (maxPrice : Option Int) (l : List MockProperty) : List MockProperty :=
  match maxPrice with
  | some m => if m ≠ 0 then l.filter (fun p => p.price ≤ m) else l
  | none => l

/-- The first wrapper's `/search`: mock pool, price filters, slice to 5. -/
def mockSearch (location : Option String) (adults : Option Int)
    (minPrice maxPrice : Option Int) (rnd : Nat → Nat) : List MockProperty :=
  (filterMaxPrice maxPrice (filterMinPrice minPrice (mockProperties location adults rnd))).take 5

/-- A template of the production-ready wrapper's `generateProperties`. -/
structure Template009 where
  type : String
  basePrice : Nat
  priceVariance : Nat
  amenities : List String
  descriptions : List String

/-- The five property templates of the production-ready wrapper. -/
def propertyTemplates009 : List Template009 :=
  [ { type := "Beach House", basePrice := 200, priceVariance := 300,
      amenities := ["WiFi", "Pool", "Kitchen", "Parking", "Beach Access", "Air Conditioning"],
      descriptions := ["Stunning oceanfront property with panoramic views and direct beach access.",
        "Beautiful beachside retreat with modern amenities and spectacular sunset views.",
        "Luxurious coastal home perfect for family gatherings and romantic getaways."] },
    { type := "Downtown Apartment", basePrice := 150, priceVariance := 250,
      amenities := ["WiFi", "Gym", "Kitchen", "City View", "Elevator", "Concierge"],
      descriptions := ["Sleek urban apartment in the heart of the city with stunning skyline views.",
        "Modern downtown living with premium amenities and convenient location.",
        "Sophisticated city apartment with contemporary design and luxury finishes."] },
    { type := "Mountain Cabin", basePrice := 120, priceVariance := 200,
      amenities := ["WiFi", "Fireplace", "Kitchen", "Mountain View", "Hiking Trails", "Hot Tub"],
      descriptions := ["Rustic mountain retreat surrounded by nature, perfect for outdoor adventures.",
        "Cozy cabin nestled in the mountains with breathtaking views and peaceful atmosphere.",
        "Charming woodland escape with modern comforts and natural beauty."] },
    { type := "Luxury Villa", basePrice := 400, priceVariance := 600,
      amenities := ["WiFi", "Pool", "Spa", "Garden", "Parking", "Chef Kitchen", "Wine Cellar"],
      descriptions := ["Exclusive luxury villa with private pool, spa, and breathtaking views.",
        "Opulent estate featuring world-class amenities and unparalleled privacy.",
        "Magnificent villa offering the ultimate in luxury and sophisticated living."] },
    { type := "Studio", basePrice := 80, priceVariance := 150,
      amenities := ["WiFi", "Kitchen", "Workspace", "Bike Rental", "Coffee Machine"],
      descriptions := ["Cozy studio apartment with everything you need for a perfect stay.",
        "Efficient and stylish studio in a prime location with modern amenities.",
        "Compact yet comfortable space ideal for solo travelers and couples."] } ]

/-- A generated listing of the production-ready wrapper. -/
structure Prop009 where
  id : String
  title : String
  description : String
  price : Int
  currency : String
  address : String
  city : String
  country : String
  lat : ℚ
  lng : ℚ
  images : List String
  amenities : List String
  rating : ℚ
  reviewCount : Nat
  hostName : String
  hostAvatar : String
  isSuperhost : Bool
  checkIn : String
  checkOut : String
  propertyType : String
  guests : Int
  bedrooms : Int
  bathrooms : Int
  url : String

/-- Host table of `generateProperties`. -/
def hosts009 : List (String × String) :=
  [("Sarah Johnson", "https://images.unsplash.com/photo-1494790108755-2616b612b786?w=150"),
   ("Michael Chen", "https://images.unsplash.com/photo-1507003211169-0a1dd7228f2d?w=150"),
   ("Emma Rodriguez", "https://images.unsplash.com/photo-1438761681033-6461ffad8d80?w=150"),
   ("David Thompson", "https://images.unsplash.com/photo-1472099645785-5658abf4ff4e?w=150"),
   ("Lisa Park", "https://images.unsplash.com/photo-1544005313-94ddf0286df2?w=150")]

/-- Image collections of `generateProperties`. -/
def imageCollections009 : List (List String) :=
  [["https://images.unsplash.com/photo-1564013799919-ab600027ffc6?w=800",
    "https://images.unsplash.com/photo-1571896349842-33c89424de2d?w=800"],
   ["https://images.unsplash.com/photo-1522708323590-d24dbb6b0267?w=800",
    "https://images.unsplash.com/photo-1560448204-e02f11c3d0e2?w=800"],
   ["https://images.unsplash.com/photo-1449824913935-59a10b8d2000?w=800",
    "https://images.unsplash.com/photo-1506905925346-21bda4d32df4?w=800"],
   ["https://images.unsplash.com/photo-1613490493576-7fde63acd811?w=800",
    "https://images.unsplash.com/photo-1582268611958-ebfd161ef9cf?w=800"],
   ["https://images.unsplash.com/photo-1502672260266-1c1ef2d93688?w=800",
    "https://images.unsplash.com/photo-1586023492125-27b2c045efd7?w=800"]]

/-- Street names indexed by template position in `generateProperties`. -/
def streets009 : List String :=
  ["Ocean Drive", "Market Street", "Pine Ridge Road", "Beverly Hills Drive", "Ocean Avenue"]

/-- Default city names indexed by template position. -/
def cities009 : List String :=
  ["Malibu", "San Francisco", "Lake Tahoe", "Beverly Hills", "Santa Monica"]

/-- The `generateProperties` generator of the production-ready wrapper. -/
def generateProperties009 (searchLocation : Option String) (adults : Option Int)
    (rnd : Nat → Nat) (rndQ : Nat → ℚ) (now : Nat) : List Prop009 :=
  mapWithIdx (fun idx t =>
    let rating : ℚ := (35 + (rnd (20 * idx + 1) % 16 : Nat) : ℚ) / 10
    { id := "prop_" ++ toString now ++ "_" ++ toString idx
      title := t.type ++ " in " ++ jsStrOr searchLocation "California"
      description := getMod t.descriptions "" (rnd (20 * idx + 2) % 3)
      price := (t.basePrice : Int) + (rnd (20 * idx) % t.priceVariance : Nat)
      currency := "USD"
      address := toString (rnd (20 * idx + 3) % 999 + 1) ++ " " ++ getMod streets009 "" idx
      city := jsStrOr searchLocation (getMod cities009 "" idx)
      country := "United States"
      lat := 340259/10000 + (rndQ (20 * idx + 4) - 1/2) * (1/10)
      lng := -1187798/10000 + (rndQ (20 * idx + 5) - 1/2) * (1/10)
      images := getMod imageCollections009 [] idx
      amenities := t.amenities
      rating := rating
      reviewCount := rnd (20 * idx + 6) % 200 + 25
      hostName := (getMod hosts009 ("", "") idx).1
      hostAvatar := (getMod hosts009 ("", "") idx).2
      isSuperhost := decide (4 < rating)
      checkIn := getMod ["2:00 PM", "3:00 PM", "4:00 PM"] "" (rnd (20 * idx + 7) % 3)
      checkOut := getMod ["10:00 AM", "11:00 AM", "12:00 PM"] "" (rnd (20 * idx + 8) % 3)
      propertyType := (t.type.splitOn " ").headD ""
      guests := jsIntOrD adults 2
      bedrooms := 1 + (rnd (20 * idx + 9) % 4 : Nat)
      bathrooms := 1 + (rnd (20 * idx + 10) % 3 : Nat)
      url := "https://airbnb.com/rooms/prop_" ++ toString now ++ "_" ++ toString idx }) 0
    propertyTemplates009

/-- Price filter of the production-ready wrapper (same JS truthiness guard). -/
def filterMinPrice009 (minPrice : Option Int) (l : List Prop009) : List Prop009 :=
  match minPrice with
  | some m => if m ≠ 0 then l.filter (fun p => m ≤ p.price) else l
  | none => l

/-- Maximum-price filter of the production-ready wrapper. -/
def filterMaxPrice009 (maxPrice : Option Int) (l : List Prop009) : List Prop009 :=
  match maxPrice with
  | some m => if m ≠ 0 then l.filter (fun p => p.price ≤ m) else l
  | none => l

/-- The production-ready wrapper's `/search`: generate, filter, slice to 5. -/
def search009 (location : Option String) (adults : Option Int)
    (minPrice maxPrice : Option Int) (rnd : Nat → Nat) (rndQ : Nat → ℚ)
    (now : Nat) : List Prop009 :=
  (filterMaxPrice009 maxPrice
    (filterMinPrice009 minPrice (generateProperties009 location adults rnd rndQ now))).take 5

/-! ### Concrete inputs used by counterexamples and witnesses -/

/-- A request body whose `minPrice` is a truthy non-numeric string. -/
def c9Body : SearchBody := { minPrice := .str "abc" }

/-- A raw listing with no price information (its `pricing` object is
absent) and truthy `city`/`guests` fields. -/
def c6Item : RapidItem := { city := .str "Austin", guests := .num 4 }

/-- A raw listing whose rating is the string "New". -/
def c7ItemNew : RapidItem := { city := .str "Austin", guests := .num 4, rating := .str "New" }

/-- A raw listing whose rating is the review-count-annotated string
"4.81 (53)" and whose `reviews` field is absent. -/
def c7ItemAnnotated : RapidItem :=
  { city := .str "Austin", guests := .num 4, rating := .str "4.81 (53)" }

/-- Source outcomes in which every upstream source throws, as happens when
no API key is configured. -/
def allFailSources : List (Except String (List Listing)) :=
  [.error "RapidAPI key not configured",
   .error "Real Estate API key not configured",
   .error "Request failed with status code 500"]

/-- An all-null transformed listing, used as the default of `okValueD`. -/
def defaultRapidProperty : RapidProperty :=
  { id := .null, title := .null, description := .null, price := .null, currency := "",
    address := .null, city := .null, country := .null, lat := .null, lng := .null,
    images := [], amenities := .null, rating := .null, reviewCount := .null,
    hostName := .null, hostAvatar := .null, hostIsSuperhost := .null,
    propertyType := .null, guests := .null, bedrooms := .null, bathrooms := .null,
    url := .null }

/-- Success payload of a single-listing transform. -/
def okValueD (r : Except Unit RapidProperty) : RapidProperty :=
  match r with
  | .ok p => p
  | .error _ => defaultRapidProperty

/-- Transformed output of the price-less listing. -/
def c6OutProp : RapidProperty := okValueD (transformRapidItem 0 (fun _ => 0) 0 c6Item)

/-- Transformed output of the "New"-rated listing. -/
def c7OutProp : RapidProperty := okValueD (transformRapidItem 0 (fun _ => 0) 0 c7ItemNew)

/-- Head of a mock-listing list, with an all-empty default. -/
def headMock (l : List MockProperty) : MockProperty :=
  match l with
  | p :: _ => p
  | [] =>
    { id := "", title := "", location := "", price := 0, rating := "", images := [],
      amenities := [], guests := 0, bedrooms := 0, bathrooms := 0 }

end AirbnbSearch

namespace AirbnbSearch

/-! ## Helper lemmas -/

/-- Length of an indexed map. -/
theorem length_mapWithIdx (f : Nat → α → β) :
    ∀ (i : Nat) (l : List α), (mapWithIdx f i l).length = l.length
  | _, [] => rfl
  | i, _ :: as => congrArg Nat.succ (length_mapWithIdx f (i + 1) as)

/-- Every member of an indexed map is a value of the function. -/
theorem mapWithIdx_mem {f : Nat → α → β} {P : β → Prop} (h : ∀ i a, P (f i a)) :
    ∀ (i : Nat) (l : List α) (b : β), b ∈ mapWithIdx f i l → P b := by
  intro i l
  induction l generalizing i with
  | nil => intro b hb; simp [mapWithIdx] at hb
  | cons a as ih =>
    intro b hb
    rcases List.mem_cons.mp (by simpa [mapWithIdx] using hb) with h1 | h1
    · exact h1 ▸ h i a
    · exact ih (i + 1) b h1

/-- Outcome of a JS `Math.max(lo, Math.min(hi, v))` clamp on a
possibly-`NaN` value. -/
theorem clampResult (lo hi : Int) (hlh : lo ≤ hi) (v : Option Int) :
    (v = none ∧ jsMax (some lo) (jsMin (some hi) v) = none) ∨
    (∃ q, jsMax (some lo) (jsMin (some hi) v) = some q ∧ lo ≤ q ∧ q ≤ hi) := by
  cases v with
  | none => exact .inl ⟨rfl, rfl⟩
  | some x =>
    refine .inr ⟨max lo (min hi x), rfl, ?_, ?_⟩ <;> omega

/-- Bound on the length of a `substring(0, n)` prefix. -/
theorem jsSubstr_length_le (s : String) (n : Nat) : (jsSubstr s n).length ≤ n := by
  show (s.data.take n).length ≤ n
  simp [List.length_take]

/-- The head of a non-empty mock-listing list is a member. -/
theorem headMock_mem (l : List MockProperty) (h : l ≠ []) : headMock l ∈ l := by
  cases l with
  | nil => exact absurd rfl h
  | cons p ps => exact List.mem_cons_self _ _

/-! ## Claim C5 -/

/-- C5: counterexample.  The claim admits every trimmed query of 1 to 500
characters, but the one-character query "a" (trimmed length 1) is rejected
by the form validation with "Please enter at least 2 characters"; no
upstream request is issued for it. -/
theorem C5_counterexample :
    (jsTrim "a").length = 1 ∧ 1 ≤ (jsTrim "a").length ∧ (jsTrim "a").length ≤ 500 ∧
    handleSearch "a" = SearchFormOutcome.rejected "Please enter at least 2 characters" := by
  refine ⟨by decide, by decide, by decide, by decide⟩

/-- C5 (amended): a search request is submitted upstream exactly when the
trimmed query has between 2 and 500 characters; all other queries are
rejected in the form handler, before any upstream call. -/
theorem C5_amended (q : String) :
    (∃ t, handleSearch q = SearchFormOutcome.submitted t) ↔
      2 ≤ (jsTrim q).length ∧ (jsTrim q).length ≤ 500 := by
  unfold handleSearch
  by_cases h0 : jsTrim q = ""
  · have hlen : (jsTrim q).length = 0 := by rw [h0]; rfl
    simp [h0, hlen]
  · by_cases h2 : (jsTrim q).length < 2
    · simp only [h0, if_false, h2, if_true]
      constructor
      · rintro ⟨t, ht⟩; exact SearchFormOutcome.noConfusion ht
      · intro h; omega
    · by_cases h5 : (jsTrim q).length > 500
      · simp only [h0, if_false, h2, if_false, h5, if_true]
        constructor
        · rintro ⟨t, ht⟩; exact SearchFormOutcome.noConfusion ht
        · intro h; omega
      · simp only [h0, if_false, h2, if_false, h5, if_true]
        constructor
        · intro _; omega
        · intro _; exact ⟨jsTrim q, rfl⟩

/-- C5: witness — the query "beach house" (trimmed length 11) is
submitted upstream. -/
theorem C5_amended_witness :
    (2 ≤ (jsTrim "beach house").length ∧ (jsTrim "beach house").length ≤ 500) ∧
    (∃ t, handleSearch "beach house" = SearchFormOutcome.submitted t) :=
  ⟨by decide, (C5_amended "beach house").mpr (by decide)⟩

/-! ## Claim C8 -/

/-- C8: evaluation of the code at the claimed scenario.  The Python
substring test `'la' in query_lower` matches the "la" inside "large", so
`extract_location_from_query` returns "Los Angeles, CA" for
"11 bedroom house in Texas for large group" instead of a Texas location;
no bedroom-count or size-band extraction exists in the sources. -/
theorem C8_code_divergence :
    extract_location_from_query "11 bedroom house in Texas for large group" = "Los Angeles, CA" ∧
    extract_location_from_query "11 bedroom house in Texas for large group" ≠ "Texas" ∧
    strContainsSub (jsToLower "11 bedroom house in Texas for large group") "la" = true ∧
    strContainsSub (jsToLower "11 bedroom house in Texas for large group") "los angeles" = false := by
  refine ⟨by decide, by decide, by decide, by decide⟩

/-! ## Claim C9 -/

/-- C9: counterexample.  For the body `{minPrice: "abc"}` the JavaScript
`parseInt` yields `NaN`, which flows through `Math.min`/`Math.max`, so the
validated `minPrice` is `NaN` — neither `null` nor a number in
`[0, 10000]` as the claim requires. -/
theorem C9_counterexample :
    (validateSearchParams (fun _ => false) c9Body).minPrice = some none ∧
    ¬ ((validateSearchParams (fun _ => false) c9Body).minPrice = none ∨
       ∃ q, (validateSearchParams (fun _ => false) c9Body).minPrice = some (some q) ∧
         0 ≤ q ∧ q ≤ 10000) := by
  have h : (validateSearchParams (fun _ => false) c9Body).minPrice = some none := by decide
  refine ⟨h, ?_⟩
  rw [h]
  simp

/-- C9 (amended): the claimed bounds hold, except that a supplied but
non-numeric `minPrice`, `maxPrice` or `bedrooms` (whose `parseInt` is
`NaN`) produces `NaN` rather than `null` or a clamped number. -/
theorem C9_amended (dv : JVal → Bool) (b : SearchBody) :
    (validateSearchParams dv b).location.length ≤ 100 ∧
    (truthy b.location = false → (validateSearchParams dv b).location = "United States") ∧
    1 ≤ (validateSearchParams dv b).adults ∧ (validateSearchParams dv b).adults ≤ 16 ∧
    0 ≤ (validateSearchParams dv b).children ∧ (validateSearchParams dv b).children ≤ 8 ∧
    0 ≤ (validateSearchParams dv b).infants ∧ (validateSearchParams dv b).infants ≤ 5 ∧
    0 ≤ (validateSearchParams dv b).pets ∧ (validateSearchParams dv b).pets ≤ 5 ∧
    ((validateSearchParams dv b).minPrice = none ∨
      (validateSearchParams dv b).minPrice = some none ∨
      ∃ q, (validateSearchParams dv b).minPrice = some (some q) ∧ 0 ≤ q ∧ q ≤ 10000) ∧
    ((validateSearchParams dv b).minPrice = some none → parseIntJS b.minPrice = none) ∧
    ((validateSearchParams dv b).maxPrice = none ∨
      (validateSearchParams dv b).maxPrice = some none ∨
      ∃ q, (validateSearchParams dv b).maxPrice = some (some q) ∧ q ≤ 50000) ∧
    ((validateSearchParams dv b).maxPrice = some none → parseIntJS b.maxPrice = none) ∧
    (∀ p q, (validateSearchParams dv b).minPrice = some (some p) →
      (validateSearchParams dv b).maxPrice = some (some q) → p ≤ q) ∧
    ((validateSearchParams dv b).bedrooms = none ∨
      (validateSearchParams dv b).bedrooms = some none ∨
      ∃ q, (validateSearchParams dv b).bedrooms = some (some q) ∧ 1 ≤ q ∧ q ≤ 20) ∧
    ((validateSearchParams dv b).bedrooms = some none → parseIntJS b.bedrooms = none) ∧
    (validateSearchParams dv b).amenities.length ≤ 10 := by
  simp only [validateSearchParams]
  refine ⟨?_, ?_, ?_, ?_, ?_, ?_, ?_, ?_, ?_, ?_, ?_, ?_, ?_, ?_, ?_, ?_, ?_, ?_⟩
  · by_cases hl : truthy b.location = true
    · rw [if_pos hl]; exact jsSubstr_length_le _ _
    · rw [if_neg hl]; decide
  · intro hl; simp [hl]
  · exact le_max_left _ _
  · have : min 16 (jsIntOr b.adults 1) ≤ 16 := min_le_left _ _
    omega
  · exact le_max_left _ _
  · have : min 8 (jsIntOr b.children 0) ≤ 8 := min_le_left _ _
    omega
  · exact le_max_left _ _
  · have : min 5 (jsIntOr b.infants 0) ≤ 5 := min_le_left _ _
    omega
  · exact le_max_left _ _
  · have : min 5 (jsIntOr b.pets 0) ≤ 5 := min_le_left _ _
    omega
  · by_cases hm : truthy b.minPrice
    · simp only [hm, if_true]
      rcases clampResult 0 10000 (by omega) (parseIntJS b.minPrice) with ⟨_, h⟩ | ⟨q, h, h1, h2⟩
      · exact .inr (.inl (by rw [h]))
      · exact .inr (.inr ⟨q, by rw [h], h1, h2⟩)
    · simp [hm]
  · by_cases hm : truthy b.minPrice
    · simp only [hm, if_true]
      rcases clampResult 0 10000 (by omega) (parseIntJS b.minPrice) with ⟨hv, h⟩ | ⟨q, h, _, _⟩
      · intro _; exact hv
      · rw [h]; intro hc; exact absurd (Option.some.inj hc) (by simp)
    · simp [hm]
  · by_cases hm : truthy b.maxPrice
    · simp only [hm, if_true]
      by_cases hmin : truthy b.minPrice
      · simp only [hmin, if_true]
        rcases clampResult 0 10000 (by omega) (parseIntJS b.minPrice) with ⟨hv, h⟩ | ⟨q, h, h1, h2⟩
        · rw [h]
          cases hx : parseIntJS b.maxPrice with
          | none => exact .inr (.inl rfl)
          | some x =>
            refine .inr (.inr ⟨max (jnumOrZero (some none)) (min 50000 x), rfl, ?_⟩)
            simp only [jnumOrZero]
            omega
        · rw [h]
          cases hx : parseIntJS b.maxPrice with
          | none => exact .inr (.inl rfl)
          | some x =>
            refine .inr (.inr ⟨max (jnumOrZero (some (some q))) (min 50000 x), rfl, ?_⟩)
            simp only [jnumOrZero]
            split <;> omega
      · simp only [hmin, if_false]
        cases hx : parseIntJS b.maxPrice with
        | none => exact .inr (.inl rfl)
        | some x =>
          refine .inr (.inr ⟨max (jnumOrZero none) (min 50000 x), rfl, ?_⟩)
          simp only [jnumOrZero]
          omega
    · simp [hm]
  · by_cases hm : truthy b.maxPrice = true
    · rw [if_pos hm]
      cases hx : parseIntJS b.maxPrice with
      | none => intro _; rfl
      | some x =>
        intro hc
        exact absurd (Option.some.inj hc) (by simp [jsMax, jsMin])
    · rw [if_neg hm]; intro hc; exact Option.noConfusion hc
  · intro p q hp hq
    by_cases hmin : truthy b.minPrice
    · simp only [hmin, if_true] at hp
      by_cases hm : truthy b.maxPrice
      · simp only [hm, if_true, hmin] at hq
        rcases clampResult 0 10000 (by omega) (parseIntJS b.minPrice) with ⟨_, h⟩ | ⟨r, h, h1, h2⟩
        · rw [h] at hp; exact absurd (Option.some.inj hp) (by simp)
        · rw [h] at hp hq
          have hpr : r = p := Option.some.inj (Option.some.inj hp)
          cases hx : parseIntJS b.maxPrice with
          | none =>
            rw [hx] at hq
            exact absurd (Option.some.inj hq) (by simp [jsMax, jsMin])
          | some x =>
            rw [hx] at hq
            have hqv : max (jnumOrZero (some (some r))) (min 50000 x) = q :=
              Option.some.inj (Option.some.inj hq)
            simp only [jnumOrZero] at hqv
            subst hpr
            split at hqv <;> omega
      · simp only [hm, if_false] at hq; exact Option.noConfusion hq
    · simp only [hmin, if_false] at hp; exact Option.noConfusion hp
  · by_cases hb : truthy b.bedrooms
    · simp only [hb, if_true]
      rcases clampResult 1 20 (by omega) (parseIntJS b.bedrooms) with ⟨_, h⟩ | ⟨q, h, h1, h2⟩
      · exact .inr (.inl (by rw [h]))
      · exact .inr (.inr ⟨q, by rw [h], h1, h2⟩)
    · simp [hb]
  · by_cases hb : truthy b.bedrooms
    · simp only [hb, if_true]
      rcases clampResult 1 20 (by omega) (parseIntJS b.bedrooms) with ⟨hv, h⟩ | ⟨q, h, _, _⟩
      · intro _; exact hv
      · rw [h]; intro hc; exact absurd (Option.some.inj hc) (by simp)
    · simp [hb]
  · cases b.amenities <;> simp [List.length_take]

/-- C9: witness — at the body `{minPrice: "abc"}` the validated adults
count is in range, the amenity list is bounded, and the NaN clause fires. -/
theorem C9_amended_witness :
    1 ≤ (validateSearchParams (fun _ => false) c9Body).adults ∧
    (validateSearchParams (fun _ => false) c9Body).amenities.length ≤ 10 ∧
    parseIntJS c9Body.minPrice = none := by
  obtain ⟨h1, h2, h3, h4, h5, h6, h7, h8, h9, h10, h11, h12, h13, h14, h15, h16, h17, h18⟩ :=
    C9_amended (fun _ => false) c9Body
  exact ⟨h3, h18, h12 (by decide)⟩

/-! ## Claim C10 -/

/-- Minimum-price filtering never adds elements. -/
theorem filterMinPrice_subset (m : Option Int) (l : List MockProperty) :
    filterMinPrice m l ⊆ l := by
  intro x hx
  cases m with
  | none => exact hx
  | some m =>
    simp only [filterMinPrice] at hx
    by_cases hm : m ≠ 0
    · rw [if_pos hm] at hx; exact List.mem_of_mem_filter hx
    · rw [if_neg hm] at hx; exact hx

/-- Maximum-price filtering never adds elements. -/
theorem filterMaxPrice_subset (m : Option Int) (l : List MockProperty) :
    filterMaxPrice m l ⊆ l := by
  intro x hx
  cases m with
  | none => exact hx
  | some m =>
    simp only [filterMaxPrice] at hx
    by_cases hm : m ≠ 0
    · rw [if_pos hm] at hx; exact List.mem_of_mem_filter hx
    · rw [if_neg hm] at hx; exact hx

/-- Minimum-price filtering never adds elements (production-ready wrapper). -/
theorem filterMinPrice009_subset (m : Option Int) (l : List Prop009) :
    filterMinPrice009 m l ⊆ l := by
  intro x hx
  cases m with
  | none => exact hx
  | some m =>
    simp only [filterMinPrice009] at hx
    by_cases hm : m ≠ 0
    · rw [if_pos hm] at hx; exact List.mem_of_mem_filter hx
    · rw [if_neg hm] at hx; exact hx

/-- Maximum-price filtering never adds elements (production-ready wrapper). -/
theorem filterMaxPrice009_subset (m : Option Int) (l : List Prop009) :
    filterMaxPrice009 m l ⊆ l := by
  intro x hx
  cases m with
  | none => exact hx
  | some m =>
    simp only [filterMaxPrice009] at hx
    by_cases hm : m ≠ 0
    · rw [if_pos hm] at hx; exact List.mem_of_mem_filter hx
    · rw [if_neg hm] at hx; exact hx

/-- Every mock listing of the first wrapper has a nonnegative price. -/
theorem mockProperties_price_nonneg (location : Option String) (adults : Option Int)
    (rnd : Nat → Nat) : ∀ p ∈ mockProperties location adults rnd, 0 ≤ p.price := by
  intro p hp
  simp only [mockProperties, List.mem_cons, List.not_mem_nil, or_false] at hp
  rcases hp with rfl | rfl | rfl | rfl | rfl <;> · show (0:Int) ≤ _; positivity

/-- Every generated listing of the production-ready wrapper has a
nonnegative price. -/
theorem generateProperties009_price_nonneg (location : Option String) (adults : Option Int)
    (rnd : Nat → Nat) (rndQ : Nat → ℚ) (now : Nat) :
    ∀ p ∈ generateProperties009 location adults rnd rndQ now, 0 ≤ p.price := by
  intro p hp
  unfold generateProperties009 at hp
  refine mapWithIdx_mem (P := fun p => 0 ≤ p.price) ?_ 0 propertyTemplates009 p hp
  intro i t
  show (0:Int) ≤ (t.basePrice : Int) + ((rnd (20 * i) % t.priceVariance : Nat) : Int)
  positivity

/-- C10: counterexample.  A request supplying `maxPrice = 0` is
JavaScript-falsy, so the maximum-price filter is skipped and the response
contains properties priced above the supplied bound. -/
theorem C10_counterexample :
    (mockSearch none none none (some 0) (fun _ => 0)).map (fun p => p.price)
      = [100, 150, 80, 300, 75] ∧
    (mockSearch none none none (some 0) (fun _ => 0)).all (fun p => p.price ≤ 0) = false := by
  exact ⟨by decide, by decide⟩

/-- C10 (amended): in both mock `/search` endpoints, every returned
property respects a supplied numeric `minPrice`, and respects a supplied
numeric `maxPrice` whenever that bound is nonzero (a supplied `0` is falsy
in JavaScript and skips the filter). -/
theorem C10_amended (location : Option String) (adults : Option Int)
    (minPrice maxPrice : Option Int) (rnd : Nat → Nat) (rndQ : Nat → ℚ) (now : Nat) :
    (∀ p ∈ mockSearch location adults minPrice maxPrice rnd,
      (∀ m, minPrice = some m → m ≤ p.price) ∧
      (∀ m, maxPrice = some m → m ≠ 0 → p.price ≤ m)) ∧
    (∀ p ∈ search009 location adults minPrice maxPrice rnd rndQ now,
      (∀ m, minPrice = some m → m ≤ p.price) ∧
      (∀ m, maxPrice = some m → m ≠ 0 → p.price ≤ m)) := by
  constructor
  · intro p hp
    have hp2 : p ∈ filterMaxPrice maxPrice (filterMinPrice minPrice
        (mockProperties location adults rnd)) := List.take_subset _ _ hp
    have hp3 : p ∈ filterMinPrice minPrice (mockProperties location adults rnd) :=
      filterMaxPrice_subset _ _ hp2
    constructor
    · intro m hm
      subst hm
      by_cases hm0 : m = 0
      · subst hm0
        exact mockProperties_price_nonneg location adults rnd p
          (filterMinPrice_subset _ _ hp3)
      · rw [show filterMinPrice (some m) (mockProperties location adults rnd)
            = (mockProperties location adults rnd).filter (fun p => m ≤ p.price)
          from by simp [filterMinPrice, hm0]] at hp3
        simpa using (List.mem_filter.mp hp3).2
    · intro m hm hm0
      subst hm
      rw [show filterMaxPrice (some m) (filterMinPrice minPrice
            (mockProperties location adults rnd))
          = (filterMinPrice minPrice (mockProperties location adults rnd)).filter
              (fun p => p.price ≤ m)
        from by simp [filterMaxPrice, hm0]] at hp2
      simpa using (List.mem_filter.mp hp2).2
  · intro p hp
    have hp2 : p ∈ filterMaxPrice009 maxPrice (filterMinPrice009 minPrice
        (generateProperties009 location adults rnd rndQ now)) := List.take_subset _ _ hp
    have hp3 : p ∈ filterMinPrice009 minPrice (generateProperties009 location adults rnd rndQ now) :=
      filterMaxPrice009_subset _ _ hp2
    constructor
    · intro m hm
      subst hm
      by_cases hm0 : m = 0
      · subst hm0
        exact generateProperties009_price_nonneg location adults rnd rndQ now p
          (filterMinPrice009_subset _ _ hp3)
      · rw [show filterMinPrice009 (some m) (generateProperties009 location adults rnd rndQ now)
            = (generateProperties009 location adults rnd rndQ now).filter (fun p => m ≤ p.price)
          from by simp [filterMinPrice009, hm0]] at hp3
        simpa using (List.mem_filter.mp hp3).2
    · intro m hm hm0
      subst hm
      rw [show filterMaxPrice009 (some m) (filterMinPrice009 minPrice
            (generateProperties009 location adults rnd rndQ now))
          = (filterMinPrice009 minPrice (generateProperties009 location adults rnd rndQ now)).filter
              (fun p => p.price ≤ m)
        from by simp [filterMaxPrice009, hm0]] at hp2
      simpa using (List.mem_filter.mp hp2).2

/-- C10: witness — with bounds 150 and 400 the first returned property
(price 150) satisfies both constraints. -/
theorem C10_amended_witness :
    (150 : Int) ≤ (headMock (mockSearch none none (some 150) (some 400) (fun _ => 0))).price ∧
    (headMock (mockSearch none none (some 150) (some 400) (fun _ => 0))).price ≤ 400 := by
  have hne : mockSearch none none (some 150) (some 400) (fun _ => 0) ≠ [] := by
    intro hc
    have hlen : (mockSearch none none (some 150) (some 400) (fun _ => 0)).length = 2 := by decide
    rw [hc] at hlen
    exact absurd hlen (by decide)
  have hmem := headMock_mem _ hne
  have h := (C10_amended none none (some 150) (some 400) (fun _ => 0) (fun _ => 0) 0).1 _ hmem
  exact ⟨h.1 150 rfl, h.2 400 rfl (by decide)⟩

/-! ## Claim C3 -/

/-- C3: the frontend retry wrapper issues at most 3 attempts (the initial
call plus at most 2 retries); the k-th backoff delay equals
`min(1000·2^k, 60000)` ms (the source's 5000 ms cap never binds within two
retries, so the delays coincide with the claimed formula); a 4xx failure is
never retried; exhausting the attempts surfaces the message derived from
the last failure. -/
theorem C3_retry_policy (att : Nat → AxiosResult) (q : String) :
    (searchProperties att q).attemptsUsed ≤ 3 ∧
    (searchProperties att q).delays.length ≤ 2 ∧
    (∀ i (h : i < (searchProperties att q).delays.length),
      (searchProperties att q).delays.get ⟨i, h⟩ = min (1000 * 2 ^ i) 60000) ∧
    (∀ e, runAttempt (att 1) q = .error e → is4xx e = true →
      (searchProperties att q).attemptsUsed = 1 ∧
      (searchProperties att q).result = .error (getErrorMessage e)) ∧
    (∀ e1 e2, runAttempt (att 1) q = .error e1 → is4xx e1 = false →
      runAttempt (att 2) q = .error e2 → is4xx e2 = true →
      (searchProperties att q).attemptsUsed = 2 ∧
      (searchProperties att q).result = .error (getErrorMessage e2)) ∧
    (∀ e1 e2 e3, runAttempt (att 1) q = .error e1 → is4xx e1 = false →
      runAttempt (att 2) q = .error e2 → is4xx e2 = false →
      runAttempt (att 3) q = .error e3 →
      (searchProperties att q).attemptsUsed = 3 ∧
      (searchProperties att q).result = .error (getErrorMessage e3) ∧
      (searchProperties att q).delays = [1000, 2000]) := by
  cases h1 : runAttempt (att 1) q with
  | ok r =>
    have hrun : searchProperties att q = ⟨.ok r, 1, []⟩ := by
      simp [searchProperties, searchGo, h1]
    rw [hrun]
    refine ⟨by simp, by simp, by intro i h; simp at h, ?_, ?_, ?_⟩
    · intro e he; exact Except.noConfusion he
    · intro e1 e2 he1 _ _ _; exact Except.noConfusion he1
    · intro e1 e2 e3 he1 _ _ _ _; exact Except.noConfusion he1
  | error e1 =>
    by_cases h4a : is4xx e1 = true
    · have hrun : searchProperties att q = ⟨.error (getErrorMessage e1), 1, []⟩ := by
        simp [searchProperties, searchGo, h1, h4a]
      rw [hrun]
      refine ⟨by simp, by simp, by intro i h; simp at h, ?_, ?_, ?_⟩
      · intro e he _
        exact ⟨rfl, by rw [Except.error.inj he]⟩
      · intro e1' e2 he1 h41 _ _
        rw [← Except.error.inj he1] at h41
        rw [h4a] at h41
        exact Bool.noConfusion h41
      · intro e1' e2 e3 he1 h41 _ _ _
        rw [← Except.error.inj he1] at h41
        rw [h4a] at h41
        exact Bool.noConfusion h41
    · rw [Bool.not_eq_true] at h4a
      cases h2 : runAttempt (att 2) q with
      | ok r =>
        have hrun : searchProperties att q = ⟨.ok r, 2, [1000]⟩ := by
          simp [searchProperties, searchGo, h1, h4a, h2]
        rw [hrun]
        refine ⟨by simp, by simp, ?_, ?_, ?_, ?_⟩
        · intro i h
          have hi : i = 0 := by simpa using h
          subst hi; rfl
        · intro e he h4
          rw [← Except.error.inj he] at h4
          rw [h4a] at h4
          exact Bool.noConfusion h4
        · intro e1' e2 _ _ he2 _; exact Except.noConfusion he2
        · intro e1' e2 e3 _ _ he2 _ _; exact Except.noConfusion he2
      | error e2 =>
        by_cases h4b : is4xx e2 = true
        · have hrun : searchProperties att q = ⟨.error (getErrorMessage e2), 2, [1000]⟩ := by
            simp [searchProperties, searchGo, h1, h4a, h2, h4b]
          rw [hrun]
          refine ⟨by simp, by simp, ?_, ?_, ?_, ?_⟩
          · intro i h
            have hi : i = 0 := by simpa using h
            subst hi; rfl
          · intro e he h4
            rw [← Except.error.inj he] at h4
            rw [h4a] at h4
            exact Bool.noConfusion h4
          · intro e1' e2' _ _ he2 _
            exact ⟨rfl, by rw [Except.error.inj he2]⟩
          · intro e1' e2' e3 _ _ he2 h42 _
            rw [← Except.error.inj he2] at h42
            rw [h4b] at h42
            exact Bool.noConfusion h42
        · rw [Bool.not_eq_true] at h4b
          cases h3 : runAttempt (att 3) q with
          | ok r =>
            have hrun : searchProperties att q = ⟨.ok r, 3, [1000, 2000]⟩ := by
              simp [searchProperties, searchGo, h1, h4a, h2, h4b, h3]
            rw [hrun]
            refine ⟨by simp, by simp, ?_, ?_, ?_, ?_⟩
            · intro i h
              have hi : i = 0 ∨ i = 1 := by
                simp only [List.length_cons, List.length_nil] at h
                omega
              rcases hi with rfl | rfl <;> rfl
            · intro e he h4
              rw [← Except.error.inj he] at h4
              rw [h4a] at h4
              exact Bool.noConfusion h4
            · intro e1' e2' _ _ he2 h42
              rw [← Except.error.inj he2] at h42
              rw [h4b] at h42
              exact Bool.noConfusion h42
            · intro e1' e2' e3 _ _ _ _ he3; exact Except.noConfusion he3
          | error e3 =>
            have hrun : searchProperties att q = ⟨.error (getErrorMessage e3), 3, [1000, 2000]⟩ := by
              simp [searchProperties, searchGo, h1, h4a, h2, h4b, h3]
            rw [hrun]
            refine ⟨by simp, by simp, ?_, ?_, ?_, ?_⟩
            · intro i h
              have hi : i = 0 ∨ i = 1 := by
                simp only [List.length_cons, List.length_nil] at h
                omega
              rcases hi with rfl | rfl <;> rfl
            · intro e he h4
              rw [← Except.error.inj he] at h4
              rw [h4a] at h4
              exact Bool.noConfusion h4
            · intro e1' e2' _ _ he2 h42
              rw [← Except.error.inj he2] at h42
              rw [h4b] at h42
              exact Bool.noConfusion h42
            · intro e1' e2' e3' _ _ _ _ he3
              exact ⟨rfl, by rw [Except.error.inj he3], rfl⟩

/-- C3: witness — three consecutive network failures exhaust the retries
with delays 1000 ms and 2000 ms and surface the network-error message. -/
theorem C3_retry_policy_witness :
    (searchProperties (fun _ => .rejected { code := some "NETWORK_ERROR" }) "beach house").attemptsUsed = 3 ∧
    (searchProperties (fun _ => .rejected { code := some "NETWORK_ERROR" }) "beach house").delays = [1000, 2000] ∧
    (searchProperties (fun _ => .rejected { code := some "NETWORK_ERROR" }) "beach house").result
      = .error "Network error. Please check your internet connection." := by
  have h := (C3_retry_policy (fun _ => .rejected { code := some "NETWORK_ERROR" }) "beach house").2.2.2.2.2
  have h3 := h { code := some "NETWORK_ERROR" } { code := some "NETWORK_ERROR" }
    { code := some "NETWORK_ERROR" } rfl rfl rfl rfl rfl
  exact ⟨h3.1, h3.2.2, by rw [h3.2.1]; rfl⟩

/-! ## Claim C4 -/

/-- C4: behaviour of the spec-modelled CircuitBreaker.  After 5 consecutive
failures from the initial closed state the circuit is open with the failure
timestamp recorded; a call before the 60 s recovery elapses is
short-circuited with `CircuitOpenError` (no network call) and leaves the
state unchanged; the first call at or after the timeout executes as the
single trial call — success returns the circuit to closed and resets the
failure counter, failure re-opens it and restarts the recovery timer, so a
further call within the new timeout is again short-circuited. -/
theorem C4_circuit_breaker (t1 t2 t3 t4 t5 tnext ttrial tafter : Nat) (b bafter : Bool)
    (hnext : tnext < t5 + 60000) (htrial : t5 + 60000 ≤ ttrial)
    (hafter : tafter < ttrial + 60000) :
    (cbFailMany cbDefault cbInit [t1, t2, t3, t4, t5]).status = .opened ∧
    (cbFailMany cbDefault cbInit [t1, t2, t3, t4, t5]).consecutiveFailures = 5 ∧
    (cbFailMany cbDefault cbInit [t1, t2, t3, t4, t5]).openedAt = t5 ∧
    cbCall cbDefault (cbFailMany cbDefault cbInit [t1, t2, t3, t4, t5]) tnext b
      = (cbFailMany cbDefault cbInit [t1, t2, t3, t4, t5], .circuitOpenError) ∧
    cbCall cbDefault (cbFailMany cbDefault cbInit [t1, t2, t3, t4, t5]) ttrial true
      = (⟨.closed, 0, t5⟩, .executed true) ∧
    cbCall cbDefault (cbFailMany cbDefault cbInit [t1, t2, t3, t4, t5]) ttrial false
      = (⟨.opened, 6, ttrial⟩, .executed false) ∧
    cbCall cbDefault ⟨.opened, 6, ttrial⟩ tafter bafter
      = (⟨.opened, 6, ttrial⟩, .circuitOpenError) := by
  have h5 : cbFailMany cbDefault cbInit [t1, t2, t3, t4, t5] = ⟨.opened, 5, t5⟩ := by
    simp [cbFailMany, cbCall, cbRecordFailure, cbInit, cbDefault]
  rw [h5]
  refine ⟨rfl, rfl, rfl, ?_, ?_, ?_, ?_⟩
  · show (if t5 + cbDefault.recoveryMs ≤ tnext then cbTrial ⟨.opened, 5, t5⟩ tnext b
      else (⟨.opened, 5, t5⟩, .circuitOpenError)) = _
    rw [if_neg (by simp [cbDefault]; omega)]
  · show (if t5 + cbDefault.recoveryMs ≤ ttrial then cbTrial ⟨.opened, 5, t5⟩ ttrial true
      else (⟨.opened, 5, t5⟩, .circuitOpenError)) = _
    rw [if_pos (by simp [cbDefault]; omega)]
    rfl
  · show (if t5 + cbDefault.recoveryMs ≤ ttrial then cbTrial ⟨.opened, 5, t5⟩ ttrial false
      else (⟨.opened, 5, t5⟩, .circuitOpenError)) = _
    rw [if_pos (by simp [cbDefault]; omega)]
    rfl
  · show (if ttrial + cbDefault.recoveryMs ≤ tafter then cbTrial ⟨.opened, 6, ttrial⟩ tafter bafter
      else (⟨.opened, 6, ttrial⟩, .circuitOpenError)) = _
    rw [if_neg (by simp [cbDefault]; omega)]

/-- C4: witness — with failures at times 10…50, a call at time 100 is
short-circuited, and the trial call at time 60050 closes the circuit. -/
theorem C4_circuit_breaker_witness :
    (cbFailMany cbDefault cbInit [10, 20, 30, 40, 50]).status = .opened ∧
    cbCall cbDefault (cbFailMany cbDefault cbInit [10, 20, 30, 40, 50]) 100 true
      = (cbFailMany cbDefault cbInit [10, 20, 30, 40, 50], .circuitOpenError) ∧
    (cbCall cbDefault (cbFailMany cbDefault cbInit [10, 20, 30, 40, 50]) 60050 true).1.status
      = .closed := by
  have h := C4_circuit_breaker 10 20 30 40 50 100 60050 60100 true false
    (by omega) (by omega) (by omega)
  refine ⟨h.1, h.2.2.2.1, ?_⟩
  rw [h.2.2.2.2.1]

/-! ## Claim C6 -/

/-- C6: counterexample.  A raw listing whose price information is absent is
emitted with the RNG-derived default amount 100 + (r mod 300), here 100 —
not the claimed default `{amount: 0, currency: "USD"}` — and the output
shape carries no low-confidence flag. -/
theorem C6_counterexample :
    firstPrice (transformRapidAPIResponse 0 (fun _ => 0) (some ⟨some [c6Item]⟩))
      = JVal.num 100 ∧
    firstPrice (transformRapidAPIResponse 0 (fun _ => 0) (some ⟨some [c6Item]⟩))
      ≠ JVal.num 0 := by
  constructor
  · rfl
  · intro h
    rw [show firstPrice (transformRapidAPIResponse 0 (fun _ => 0) (some ⟨some [c6Item]⟩))
        = JVal.num 100 from rfl] at h
    exact absurd (JVal.num.inj h) (by decide)

/-- C6 (amended): for every listing the transform emits, a falsy or absent
price field is replaced by the pseudo-random USD amount 100 + (r mod 300) —
always in [100, 399] and never 0 — while a truthy price value (parsable or
not) is passed through unchanged; currency is always "USD" and no
low-confidence flag exists. -/
theorem C6_amended (now : Nat) (rng : Nat → Nat) (idx : Nat) (item : RapidItem)
    (p : RapidProperty) (h : transformRapidItem now rng idx item = .ok p) :
    p.currency = "USD" ∧
    (truthy item.pricingRate = false →
      p.price = JVal.num (100 + (rng idx % 300 : Nat)) ∧
      ∃ a : Int, p.price = JVal.num a ∧ 100 ≤ a ∧ a ≤ 399 ∧ a ≠ 0) ∧
    (truthy item.pricingRate = true → p.price = item.pricingRate) := by
  unfold transformRapidItem at h
  by_cases hc : truthy item.city = false
  · rw [if_pos hc] at h; exact Except.noConfusion h
  · rw [if_neg hc] at h
    by_cases hg : truthy item.guests = false
    · rw [if_pos hg] at h; exact Except.noConfusion h
    · rw [if_neg hg] at h
      have hp := Except.ok.inj h
      subst hp
      refine ⟨rfl, ?_, ?_⟩
      · intro hfalse
        have hval : jOr item.pricingRate (JVal.num (100 + (rng idx % 300 : Nat)))
            = JVal.num (100 + (rng idx % 300 : Nat)) := by
          simp [jOr, hfalse]
        refine ⟨hval, 100 + (rng idx % 300 : Nat), hval, by omega, ?_, by omega⟩
        have : rng idx % 300 < 300 := Nat.mod_lt _ (by omega)
        omega
      · intro htrue
        show jOr item.pricingRate _ = _
        simp [jOr, htrue]

/-- C6: witness — the price-less listing `c6Item` indeed receives amount
100 with currency "USD". -/
theorem C6_amended_witness :
    truthy c6Item.pricingRate = false ∧
    c6OutProp.price = JVal.num (100 + ((fun _ => (0 : Nat)) 0 % 300 : Nat)) ∧
    c6OutProp.currency = "USD" := by
  have h := C6_amended 0 (fun _ => 0) 0 c6Item c6OutProp rfl
  exact ⟨by decide, (h.2.1 (by decide)).1, h.1⟩

/-! ## Claim C7 -/

/-- C7: counterexample.  The rating string "New" is passed through as the
string "New" (not the claimed null), and for the annotated rating
"4.81 (53)" with no separate `reviews` field, the transform emits the
unparsed string together with the default review count 50 instead of
extracting 4.81 and 53. -/
theorem C7_counterexample :
    firstRating (transformRapidAPIResponse 0 (fun _ => 0)
        (some ⟨some [c7ItemNew, c7ItemAnnotated]⟩)) = JVal.str "New" ∧
    firstRating (transformRapidAPIResponse 0 (fun _ => 0)
        (some ⟨some [c7ItemNew, c7ItemAnnotated]⟩)) ≠ JVal.null ∧
    secondRating (transformRapidAPIResponse 0 (fun _ => 0)
        (some ⟨some [c7ItemNew, c7ItemAnnotated]⟩)) = JVal.str "4.81 (53)" ∧
    secondReviewCount (transformRapidAPIResponse 0 (fun _ => 0)
        (some ⟨some [c7ItemNew, c7ItemAnnotated]⟩)) = JVal.num 50 := by
  refine ⟨rfl, ?_, rfl, rfl⟩
  intro h
  rw [show firstRating (transformRapidAPIResponse 0 (fun _ => 0)
      (some ⟨some [c7ItemNew, c7ItemAnnotated]⟩)) = JVal.str "New" from rfl] at h
  exact JVal.noConfusion h

/-- C7 (amended): a truthy rating value — including the strings "New" and
"4.81 (53)" — is passed through unchanged and never parsed; an absent
rating defaults to the fabricated numeric 4.0; the review count comes only
from the separate `reviews` field, defaulting to 50. -/
theorem C7_amended (now : Nat) (rng : Nat → Nat) (idx : Nat) (item : RapidItem)
    (p : RapidProperty) (h : transformRapidItem now rng idx item = .ok p) :
    (truthy item.rating = true → p.rating = item.rating) ∧
    (truthy item.rating = false → p.rating = JVal.num 4) ∧
    (truthy item.reviews = true → p.reviewCount = item.reviews) ∧
    (truthy item.reviews = false → p.reviewCount = JVal.num 50) := by
  unfold transformRapidItem at h
  by_cases hc : truthy item.city = false
  · rw [if_pos hc] at h; exact Except.noConfusion h
  · rw [if_neg hc] at h
    by_cases hg : truthy item.guests = false
    · rw [if_pos hg] at h; exact Except.noConfusion h
    · rw [if_neg hg] at h
      have hp := Except.ok.inj h
      subst hp
      refine ⟨?_, ?_, ?_, ?_⟩ <;> intro hr <;>
        · show jOr _ _ = _
          simp [jOr, hr]

/-- C7: witness — the "New"-rated listing keeps its string rating. -/
theorem C7_amended_witness :
    truthy c7ItemNew.rating = true ∧ c7OutProp.rating = JVal.str "New" := by
  have h := C7_amended 0 (fun _ => 0) 0 c7ItemNew c7OutProp rfl
  exact ⟨by decide, by rw [h.1 (by decide)]; rfl⟩

/-! ## Claim C1 -/

/-- With an empty candidate pool, the source loop finds nothing. -/
theorem fetchLoop_of_pool_nil :
    ∀ srcs : List (Except String (List Listing)),
      candidatePool srcs = [] → fetchLoop srcs = none := by
  intro srcs
  induction srcs with
  | nil => intro _; rfl
  | cons s rest ih =>
    intro h
    cases s with
    | error e => exact ih h
    | ok ps =>
      by_cases hp : ps.length > 0
      · have hpool : candidatePool (Except.ok ps :: rest) = ps := by
          simp [candidatePool, hp]
        rw [hpool] at h
        subst h
        simp at hp
      · have he : ps = [] := List.length_eq_zero.mp (by omega)
        subst he
        exact ih h

/-- With a non-empty candidate pool, the source loop returns its first
five listings. -/
theorem fetchLoop_of_pool_ne :
    ∀ srcs : List (Except String (List Listing)),
      candidatePool srcs ≠ [] → fetchLoop srcs = some ((candidatePool srcs).take 5) := by
  intro srcs
  induction srcs with
  | nil => intro h; exact absurd rfl h
  | cons s rest ih =>
    intro h
    cases s with
    | error e => exact ih h
    | ok ps =>
      by_cases hp : ps.length > 0
      · simp [fetchLoop, candidatePool, hp]
      · have he : ps = [] := List.length_eq_zero.mp (by omega)
        subst he
        exact ih h

/-- The generated fallback always contains exactly five listings. -/
theorem generateEnhanced_length (shuffled : List PropertyTemplate) (rngN : Nat → Nat)
    (rngQ : Nat → ℚ) (now : Nat) (params : SearchParams) (hs : shuffled.Perm allTypes) :
    (generateEnhancedRealisticProperties shuffled rngN rngQ now params).length = 5 := by
  have h5 : shuffled.length = 5 := by rw [hs.length_eq]; rfl
  show (mapWithIdx _ 0 (shuffled.take 5)).length = 5
  rw [length_mapWithIdx, List.length_take, h5]
  omega

/-- C1: counterexample.  When every source fails the candidate pool is
empty, so the claimed length is min(5, 0) = 0 — but the code returns the 5
generated fallback listings instead. -/
theorem C1_counterexample :
    candidatePool allFailSources = [] ∧
    min 5 (candidatePool allFailSources).length = 0 ∧
    (fetchRealProperties allFailSources
      ((generateEnhancedRealisticProperties allTypes (fun _ => 0) (fun _ => 0) 0
        (validateSearchParams (fun _ => false) {})).map .generated)).length = 5 := by
  refine ⟨rfl, rfl, ?_⟩
  rw [show fetchRealProperties allFailSources
      ((generateEnhancedRealisticProperties allTypes (fun _ => 0) (fun _ => 0) 0
        (validateSearchParams (fun _ => false) {})).map .generated)
      = (generateEnhancedRealisticProperties allTypes (fun _ => 0) (fun _ => 0) 0
        (validateSearchParams (fun _ => false) {})).map .generated from rfl]
  rw [List.length_map]
  exact generateEnhanced_length allTypes (fun _ => 0) (fun _ => 0) 0
    (validateSearchParams (fun _ => false) {}) (List.Perm.refl _)

/-- C1 (amended): when the candidate pool is non-empty the returned list
has length exactly min(5, poolSize); when the pool is empty the code does
not return 0 listings but the 5 generated fallback listings — the result
is never empty. -/
theorem C1_amended (srcs : List (Except String (List Listing)))
    (shuffled : List PropertyTemplate) (rngN : Nat → Nat) (rngQ : Nat → ℚ)
    (now : Nat) (params : SearchParams) (hs : shuffled.Perm allTypes) :
    (candidatePool srcs ≠ [] →
      (fetchRealProperties srcs
        ((generateEnhancedRealisticProperties shuffled rngN rngQ now params).map .generated)).length
        = min 5 (candidatePool srcs).length) ∧
    (candidatePool srcs = [] →
      (fetchRealProperties srcs
        ((generateEnhancedRealisticProperties shuffled rngN rngQ now params).map .generated)).length
        = 5) ∧
    (fetchRealProperties srcs
      ((generateEnhancedRealisticProperties shuffled rngN rngQ now params).map .generated)).length
      ≠ 0 := by
  have hgen : ((generateEnhancedRealisticProperties shuffled rngN rngQ now params).map
      (Listing.generated)).length = 5 := by
    rw [List.length_map]
    exact generateEnhanced_length shuffled rngN rngQ now params hs
  by_cases hpool : candidatePool srcs = []
  · have hfetch : fetchRealProperties srcs
        ((generateEnhancedRealisticProperties shuffled rngN rngQ now params).map .generated)
        = (generateEnhancedRealisticProperties shuffled rngN rngQ now params).map .generated := by
      unfold fetchRealProperties
      rw [fetchLoop_of_pool_nil srcs hpool]
    refine ⟨fun h => absurd hpool h, fun _ => by rw [hfetch]; exact hgen, ?_⟩
    rw [hfetch, hgen]
    omega
  · have hfetch : fetchRealProperties srcs
        ((generateEnhancedRealisticProperties shuffled rngN rngQ now params).map .generated)
        = (candidatePool srcs).take 5 := by
      unfold fetchRealProperties
      rw [fetchLoop_of_pool_ne srcs hpool]
    have hlen : ((candidatePool srcs).take 5).length = min 5 (candidatePool srcs).length :=
      List.length_take _ _
    refine ⟨fun _ => by rw [hfetch]; exact hlen, fun h => absurd h hpool, ?_⟩
    rw [hfetch, hlen]
    have : (candidatePool srcs).length ≠ 0 := by
      intro hc
      exact hpool (List.length_eq_zero.mp hc)
    omega

/-- C1: witness — a single source succeeding with one listing yields a
result of length min(5, 1) = 1. -/
theorem C1_amended_witness :
    candidatePool [Except.ok [Listing.fromSource defaultRapidProperty]] ≠ [] ∧
    (fetchRealProperties [Except.ok [Listing.fromSource defaultRapidProperty]]
      ((generateEnhancedRealisticProperties allTypes (fun _ => 0) (fun _ => 0) 0
        (validateSearchParams (fun _ => false) {})).map .generated)).length
      = min 5 (candidatePool [Except.ok [Listing.fromSource defaultRapidProperty]]).length := by
  have hne : candidatePool [Except.ok [Listing.fromSource defaultRapidProperty]] ≠ [] := by
    intro hc
    rw [show candidatePool [Except.ok [Listing.fromSource defaultRapidProperty]]
        = [Listing.fromSource defaultRapidProperty] from rfl] at hc
    exact List.noConfusion hc
  have h := C1_amended [Except.ok [.fromSource defaultRapidProperty]] allTypes
    (fun _ => 0) (fun _ => 0) 0 (validateSearchParams (fun _ => false) {}) (List.Perm.refl _)
  exact ⟨hne, h.1 hne⟩

/-! ## Claim C2 -/

/-- C2: divergence of the code from the claim.  When every upstream source
fails (here: the API keys are missing and the last request throws), the
`/search` endpoint answers HTTP 200 with a success-shaped body containing
the 5 generated listings — the caller receives fabricated listings and no
failure result. -/
theorem C2_code_divergence :
    candidatePool allFailSources = [] ∧
    (searchEndpoint (fun _ => false) {} allFailSources allTypes
      (fun _ => 0) (fun _ => 0) 0).statusCode = 200 ∧
    (searchEndpoint (fun _ => false) {} allFailSources allTypes
      (fun _ => 0) (fun _ => 0) 0).isErrorBody = false ∧
    (searchEndpoint (fun _ => false) {} allFailSources allTypes
      (fun _ => 0) (fun _ => 0) 0).properties.length = 5 := by
  refine ⟨rfl, rfl, rfl, ?_⟩
  show (fetchRealProperties allFailSources
    ((generateEnhancedRealisticProperties allTypes (fun _ => 0) (fun _ => 0) 0
      (validateSearchParams (fun _ => false) {})).map .generated)).length = 5
  rw [show fetchRealProperties allFailSources
      ((generateEnhancedRealisticProperties allTypes (fun _ => 0) (fun _ => 0) 0
        (validateSearchParams (fun _ => false) {})).map .generated)
      = (generateEnhancedRealisticProperties allTypes (fun _ => 0) (fun _ => 0) 0
        (validateSearchParams (fun _ => false) {})).map .generated from rfl]
  rw [List.length_map]
  exact generateEnhanced_length allTypes (fun _ => 0) (fun _ => 0) 0
    (validateSearchParams (fun _ => false) {}) (List.Perm.refl _)

end AirbnbSearch
